import Mathlib

/-!
Verification of the batch-transfer CLI (`src/main.rs`).

The program zips two wallet lists from a config file, spawns one tokio task
per valid (sender, recipient) pair, each task calls `send_transaction` and
pushes one `TransactionResult` into a shared `Arc<Mutex<Vec<_>>>`; `main`
awaits every join handle and then prints the collected results.

The embedding below translates that source into Lean. The remote RPC
service, the base58 keypair parser and the pubkey parser are external
collaborators; their observable behaviour is a parameter of the model
(an `RpcEnv` per spawned task, and two parse functions). Concurrency is
modelled by leaving the order of the mutex-serialized appends to the
scheduler: a possible final content of the shared vector is any
permutation of the completed tasks' outcomes.
-/

namespace SolanaTestCli

/-- A Solana public key, modelled by its base58 text form.
`Pubkey::to_string` round-trips with parsing, so the text form is a
faithful identity for everything this program does with a pubkey. -/
abbrev Pubkey := String

/-- Model of `solana_sdk::signature::Keypair`, reduced to the only data the program
derives from it: the public address text `Signer::pubkey().to_string()`
(src/main.rs:99). -/
structure Keypair where
  pubkey : Pubkey
deriving DecidableEq, Repr

/-- One remote call made by `send_transaction`:
`client.get_latest_blockhash()` or `client.send_and_confirm_transaction(..)`. -/
inductive RpcCall
  | getLatestBlockhash
  | sendAndConfirm
deriving DecidableEq, Repr

/-- The behaviour of the remote RPC service as observed by one task:
the result of `get_latest_blockhash`, the result of
`send_and_confirm_transaction` (a signature string on success), and the
wall-clock duration in nanoseconds that `start_time.elapsed()` measures on
the success path. Errors carry the underlying cause text; note that
`anyhow`'s `Display` (what `format!` with `{}` shows) prints only the
outermost `.context(..)` message, which `send_transaction` below
reproduces. -/
structure RpcEnv where
  latest_blockhash : Except String String
  send_and_confirm : Except String String
  elapsed : Nat
deriving Repr

/-- Model of `send_transaction` (src/main.rs:39-68), instrumented with the list of
remote calls it performs, in order. A blockhash failure returns (`?`)
before the transaction is built or submitted; otherwise the signed
transaction is submitted exactly once. The error strings are the `anyhow`
context messages attached at src/main.rs:49 and src/main.rs:64, which is
what `Display` renders. -/
def send_transaction (env : RpcEnv) :
    List RpcCall × Except String (String × Nat) :=
  match env.latest_blockhash with
  | .error _ =>
      ([RpcCall.getLatestBlockhash], .error "Failed to get latest blockhash")
  | .ok _ =>
      match env.send_and_confirm with
      | .error _ =>
          ([RpcCall.getLatestBlockhash, RpcCall.sendAndConfirm],
            .error "Failed to send transaction")
      | .ok sig =>
          ([RpcCall.getLatestBlockhash, RpcCall.sendAndConfirm],
            .ok (sig, env.elapsed))

/-- Model of `TransactionResult` (src/main.rs:30-37). `duration` is in
nanoseconds; `Duration::new(0, 0)` is `0`. -/
structure TransactionResult where
  «from» : String
  «to» : String
  transaction_hash : Option String
  status : String
  duration : Nat
deriving DecidableEq, Repr

/-- The body of the spawned task (src/main.rs:98-124): call
`send_transaction` and build the `TransactionResult`. On `Ok` the status is
`"Success"` and the hash is present; on `Err(e)` the status is
`format!("Failed: {}", e)`, the hash is `None` and the duration is
`Duration::new(0, 0)`. -/
def runTask (env : RpcEnv) (sender_address recipient_address : String) :
    TransactionResult :=
  match (send_transaction env).2 with
  | .ok (hash, duration) =>
      { «from» := sender_address
        «to» := recipient_address
        transaction_hash := some hash
        status := "Success"
        duration := duration }
  | .error e =>
      { «from» := sender_address
        «to» := recipient_address
        transaction_hash := none
        status := "Failed: " ++ e
        duration := 0 }

/-- Model of `Config` (src/main.rs:15-19). -/
structure Config where
  sender_wallets : List String
  recipient_wallets : List String
deriving DecidableEq, Repr

/-- The pair-building loop of `main` (src/main.rs:82-92) over the zipped
wallet lists. For each pair, `Keypair::from_base58_string(sender)` runs
first and panics on a malformed sender — modelled as `parseKeypair`
returning `none`, which aborts the whole loop (result `none`). Then
`recipient.parse::<Pubkey>()` runs; its failure hits `continue`, silently
skipping the pair. `parseKeypair` and `parsePubkey` are the external
`solana_sdk` parsers, left abstract. -/
def dispatchPairs (parseKeypair : String → Option Keypair)
    (parsePubkey : String → Option Pubkey) :
    List (String × String) → Option (List (Keypair × Pubkey))
  | [] => some []
  | (s, r) :: rest =>
      match parseKeypair s with
      | none => none
      | some kp =>
          match parsePubkey r with
          | none => dispatchPairs parseKeypair parsePubkey rest
          | some pk =>
              (dispatchPairs parseKeypair parsePubkey rest).map
                (fun ps => (kp, pk) :: ps)

/-- The dispatch phase of `main` (src/main.rs:82-127): the two wallet
lists are paired positionally by `.iter().zip(..)` and the loop above
decides, pair by pair, whether a task is spawned. -/
def dispatch (parseKeypair : String → Option Keypair)
    (parsePubkey : String → Option Pubkey) (cfg : Config) :
    Option (List (Keypair × Pubkey)) :=
  dispatchPairs parseKeypair parsePubkey
    (cfg.sender_wallets.zip cfg.recipient_wallets)

/-- The outcome the i-th spawned task appends, as a function of its
position in the spawn order: `sender_address` and `recipient_address` are
the text forms computed at src/main.rs:99-100. -/
def spawnedOutcomes (envs : Nat → RpcEnv)
    (pairs : List (Keypair × Pubkey)) : List TransactionResult :=
  pairs.enum.map (fun ip => runTask (envs ip.1) ip.2.1.pubkey ip.2.2)

/-- The outcomes of the tasks that ran to completion (`completes i = false`
models a task that faulted before its single `push`, which is also exactly
the case in which its join handle fails). In spawn order. -/
def completedOutcomes (envs : Nat → RpcEnv) (completes : Nat → Bool)
    (pairs : List (Keypair × Pubkey)) : List TransactionResult :=
  (pairs.enum.filter (fun ip => completes ip.1)).map
    (fun ip => runTask (envs ip.1) ip.2.1.pubkey ip.2.2)

/-- The concurrent phase (src/main.rs:111 and src/main.rs:121): each
completed task locks the `Mutex` once and pushes its single outcome, so
the appends are serialized and the scheduler fixes only their order. A
possible final content of the shared `results` vector is therefore any
permutation of the completed tasks' outcomes. -/
def concurrentPhase (envs : Nat → RpcEnv) (completes : Nat → Bool)
    (pairs : List (Keypair × Pubkey)) (rs : List TransactionResult) : Prop :=
  List.Perm rs (completedOutcomes envs completes pairs)

/-- The two ways `main` aborts after config parsing: a panic from
`Keypair::from_base58_string` on a malformed sender (src/main.rs:87), or
`handle.await?` propagating a failed join (src/main.rs:130). Either way
the process exits abnormally and the report loop is never reached. -/
inductive BatchError
  | panicBadSender
  | joinFailure
deriving DecidableEq, Repr

/-- Model of `main` after config load (src/main.rs:77-147): build and spawn the
tasks, await every join handle — a failed join aborts `main` with `Err`
before the report loop — and otherwise freeze the result set. The frozen
set is the multiset of all spawned outcomes (its order in the vector is
scheduler-chosen, see `concurrentPhase`). -/
def mainModel (parseKeypair : String → Option Keypair)
    (parsePubkey : String → Option Pubkey) (cfg : Config)
    (envs : Nat → RpcEnv) (completes : Nat → Bool) :
    Except BatchError (Multiset TransactionResult) :=
  match dispatch parseKeypair parsePubkey cfg with
  | none => .error .panicBadSender
  | some pairs =>
      if (List.range pairs.length).all completes then
        .ok (spawnedOutcomes envs pairs)
      else
        .error .joinFailure

/-- Proof-side characterisation of one loop iteration's effect: the pair
survives to a spawned task iff the sender parses (else panic) and the
recipient parses (else skip). -/
def parsedPair (parseKeypair : String → Option Keypair)
    (parsePubkey : String → Option Pubkey) (p : String × String) :
    Option (Keypair × Pubkey) :=
  match parseKeypair p.1, parsePubkey p.2 with
  | some kp, some pk => some (kp, pk)
  | _, _ => none

/-- Concrete RPC behaviour: both remote calls succeed. -/
def envOk : RpcEnv := ⟨Except.ok "hashA", Except.ok "sig1", 5⟩

/-- Concrete RPC behaviour: the blockhash fetch fails. -/
def envBadBlockhash : RpcEnv := ⟨Except.error "boom", Except.ok "sig1", 7⟩

/-- Concrete RPC behaviour: submission fails after a good blockhash. -/
def envBadSend : RpcEnv := ⟨Except.ok "hashA", Except.error "refused", 7⟩

/-- Concrete per-task environments: every task's remote calls succeed. -/
def envsW : Nat → RpcEnv := fun _ => envOk

/-- Concrete schedule in which every task runs to completion. -/
def completesAll : Nat → Bool := fun _ => true

/-- Concrete schedule in which every task faults before appending. -/
def completesNone : Nat → Bool := fun _ => false

/-- Concrete stand-in for `Keypair::from_base58_string` on sample wallet
strings; any string outside the table makes the real parser panic, which
the model records as `none`. -/
def pkpW : String → Option Keypair := fun s =>
  if s = "skey1" then some ⟨"A1"⟩
  else if s = "skey2" then some ⟨"A2"⟩
  else if s = "skey3" then some ⟨"A3"⟩
  else none

/-- Concrete stand-in for `str::parse::<Pubkey>` on sample wallet strings. -/
def ppkW : String → Option Pubkey := fun r =>
  if r = "rkey1" then some "B1"
  else if r = "rkey2" then some "B2"
  else if r = "rkey3" then some "B3"
  else none

/-- C2: for every outcome an Executor invocation produces, the status is
`"Success"` iff the transaction hash is present. -/
theorem c2_success_iff_hash_present (env : RpcEnv) (sa ra : String) :
    (runTask env sa ra).status = "Success" ↔
      (runTask env sa ra).transaction_hash.isSome = true := by
  obtain ⟨bh, sc, el⟩ := env
  cases bh <;> cases sc <;> simp [runTask, send_transaction]

/-- C5: the Executor never raises: for every RPC behaviour it produces a
`TransactionResult`; a successful remote exchange yields status
`"Success"`, and every failure of the remote calls is captured into the
outcome's status (as `Failed: ...` text) with no hash, rather than
propagating to the caller. -/
theorem c5_executor_never_raises (env : RpcEnv) (sa ra : String) :
    (∃ h d, (send_transaction env).2 = Except.ok (h, d) ∧
        (runTask env sa ra).status = "Success") ∨
    (∃ e, (send_transaction env).2 = Except.error e ∧
        (runTask env sa ra).status = "Failed: " ++ e ∧
        (runTask env sa ra).transaction_hash = none) := by
  obtain ⟨bh, sc, el⟩ := env
  cases bh <;> cases sc <;> simp [runTask, send_transaction]

/-- C6: every failing Executor invocation — at blockhash retrieval or at
submission — produces an outcome with a `Failed` status carrying the
failure text (the `anyhow` context message that `Display` shows), no
transaction hash, and zero elapsed duration. -/
theorem c6_failure_zero_elapsed_no_hash (env : RpcEnv) (sa ra : String) :
    (∀ c, env.latest_blockhash = Except.error c →
        runTask env sa ra =
          ⟨sa, ra, none, "Failed: Failed to get latest blockhash", 0⟩) ∧
    (∀ bh c, env.latest_blockhash = Except.ok bh →
        env.send_and_confirm = Except.error c →
        runTask env sa ra =
          ⟨sa, ra, none, "Failed: Failed to send transaction", 0⟩) := by
  obtain ⟨bhv, scv, el⟩ := env
  constructor
  · rintro c rfl
    rfl
  · rintro bh c rfl rfl
    rfl

/-- Witness for C6 at concrete failing environments. -/
theorem c6_failure_zero_elapsed_no_hash_witness :
    runTask envBadBlockhash "a" "b" =
        ⟨"a", "b", none, "Failed: Failed to get latest blockhash", 0⟩ ∧
    runTask envBadSend "a" "b" =
        ⟨"a", "b", none, "Failed: Failed to send transaction", 0⟩ :=
  ⟨(c6_failure_zero_elapsed_no_hash envBadBlockhash "a" "b").1 "boom" rfl,
   (c6_failure_zero_elapsed_no_hash envBadSend "a" "b").2 "hashA" "refused" rfl rfl⟩

/-- C7: every Executor invocation submits at most one transaction, and
submits none at all when the blockhash retrieval fails. -/
theorem c7_at_most_one_submission (env : RpcEnv) :
    (send_transaction env).1.count RpcCall.sendAndConfirm ≤ 1 ∧
    (∀ c, env.latest_blockhash = Except.error c →
        (send_transaction env).1.count RpcCall.sendAndConfirm = 0) := by
  obtain ⟨bhv, scv, el⟩ := env
  cases bhv <;> cases scv <;> simp [send_transaction]

/-- Witness for C7 at a concrete failing environment. -/
theorem c7_at_most_one_submission_witness :
    (send_transaction envBadBlockhash).1.count RpcCall.sendAndConfirm ≤ 1 ∧
    (send_transaction envBadBlockhash).1.count RpcCall.sendAndConfirm = 0 :=
  ⟨(c7_at_most_one_submission envBadBlockhash).1,
   (c7_at_most_one_submission envBadBlockhash).2 "boom" rfl⟩

/-- Helper: when every sender in the list parses, the dispatch loop runs to
the end without panicking and keeps exactly the pairs whose recipient
parses, in order. -/
theorem dispatchPairs_eq_filterMap (pkp : String → Option Keypair)
    (ppk : String → Option Pubkey) (l : List (String × String))
    (hs : ∀ p ∈ l, (pkp p.1).isSome = true) :
    dispatchPairs pkp ppk l = some (l.filterMap (parsedPair pkp ppk)) := by
  induction l with
  | nil => rfl
  | cons hd tl ih =>
    obtain ⟨s, r⟩ := hd
    obtain ⟨kp, hkp⟩ :=
      Option.isSome_iff_exists.mp (hs (s, r) (List.mem_cons_self _ _))
    have htl := ih (fun p hp => hs p (List.mem_cons_of_mem _ hp))
    cases hppk : ppk r with
    | none =>
        simp [dispatchPairs, hkp, hppk, htl, parsedPair, List.filterMap_cons]
    | some pk =>
        simp [dispatchPairs, hkp, hppk, htl, parsedPair, List.filterMap_cons]

/-- Helper: the dispatch loop panics exactly when some zipped pair has a
sender rejected by the base58 keypair parser. -/
theorem dispatchPairs_eq_none_iff (pkp : String → Option Keypair)
    (ppk : String → Option Pubkey) (l : List (String × String)) :
    dispatchPairs pkp ppk l = none ↔ ∃ p ∈ l, pkp p.1 = none := by
  induction l with
  | nil => simp [dispatchPairs]
  | cons hd tl ih =>
    obtain ⟨s, r⟩ := hd
    cases hkp : pkp s with
    | none =>
        constructor
        · intro _
          exact ⟨(s, r), List.mem_cons_self _ _, hkp⟩
        · intro _
          simp [dispatchPairs, hkp]
    | some kp =>
        cases hppk : ppk r with
        | none => simp [dispatchPairs, hkp, hppk, ih]
        | some pk =>
            simp [dispatchPairs, hkp, hppk, ih, Option.map_eq_none']

/-- Helper: the number of dispatched pairs is the number of zipped pairs
whose recipient parses, provided every sender parses. -/
theorem length_filterMap_parsedPair (pkp : String → Option Keypair)
    (ppk : String → Option Pubkey) (l : List (String × String))
    (hs : ∀ p ∈ l, (pkp p.1).isSome = true) :
    (l.filterMap (parsedPair pkp ppk)).length =
      (l.filter (fun p => (ppk p.2).isSome)).length := by
  induction l with
  | nil => rfl
  | cons hd tl ih =>
    obtain ⟨s, r⟩ := hd
    obtain ⟨kp, hkp⟩ :=
      Option.isSome_iff_exists.mp (hs (s, r) (List.mem_cons_self _ _))
    have htl := ih (fun p hp => hs p (List.mem_cons_of_mem _ hp))
    cases hppk : ppk r <;>
      simp [List.filterMap_cons, List.filter_cons, parsedPair, hkp, hppk, htl]

/-- Helper: zipping truncates both lists at the shorter one's length. -/
theorem zip_eq_zip_take (ss rs : List String) :
    ss.zip rs = (ss.take rs.length).zip (rs.take ss.length) := by
  induction ss generalizing rs with
  | nil => simp
  | cons s ss ih =>
    cases rs with
    | nil => simp
    | cons r rs => simp [ih]

/-- C4: a pair whose recipient string fails pubkey parsing is silently
skipped: provided every sender parses, the dispatch loop finishes without
any error, spawning tasks exactly for the pairs whose recipient parses;
a pair with an unparsable recipient contributes no task (and hence no
outcome). -/
theorem c4_malformed_recipient_silently_skipped (pkp : String → Option Keypair)
    (ppk : String → Option Pubkey) (cfg : Config)
    (hs : ∀ p ∈ cfg.sender_wallets.zip cfg.recipient_wallets,
      (pkp p.1).isSome = true) :
    dispatch pkp ppk cfg =
      some ((cfg.sender_wallets.zip cfg.recipient_wallets).filterMap
        (parsedPair pkp ppk)) ∧
    ∀ p ∈ cfg.sender_wallets.zip cfg.recipient_wallets,
      ppk p.2 = none → parsedPair pkp ppk p = none := by
  refine ⟨dispatchPairs_eq_filterMap pkp ppk _ hs, ?_⟩
  intro p _ hp
  simp only [parsedPair, hp]
  cases pkp p.1 <;> rfl

/-- Witness for C4: three pairs, the middle recipient malformed — the
dispatcher silently keeps exactly the two valid pairs. -/
theorem c4_malformed_recipient_silently_skipped_witness :
    dispatch pkpW ppkW ⟨["skey1", "skey2", "skey3"], ["rkey1", "oops", "rkey2"]⟩ =
      some [(⟨"A1"⟩, "B1"), (⟨"A3"⟩, "B2")] :=
  ((c4_malformed_recipient_silently_skipped pkpW ppkW _ (by decide)).1).trans
    (by decide)

/-- C9: the Dispatcher pairs the two wallet lists positionally: the
dispatch outcome depends only on the first min(|senders|, |recipients|)
elements of each list (every excess element of the longer list is ignored
and never used), and when every considered pair parses, exactly
min(|senders|, |recipients|) pairs are dispatched. -/
theorem c9_positional_zip_min (pkp : String → Option Keypair)
    (ppk : String → Option Pubkey) (ss rs : List String) :
    dispatch pkp ppk ⟨ss, rs⟩ =
      dispatch pkp ppk ⟨ss.take rs.length, rs.take ss.length⟩ ∧
    ((∀ p ∈ ss.zip rs, (pkp p.1).isSome = true ∧ (ppk p.2).isSome = true) →
      ∃ pairs, dispatch pkp ppk ⟨ss, rs⟩ = some pairs ∧
        pairs.length = min ss.length rs.length) := by
  constructor
  · show dispatchPairs pkp ppk (ss.zip rs) =
      dispatchPairs pkp ppk ((ss.take rs.length).zip (rs.take ss.length))
    exact congrArg _ (zip_eq_zip_take ss rs)
  · intro hv
    have hd := dispatchPairs_eq_filterMap pkp ppk (ss.zip rs)
      (fun p hp => (hv p hp).1)
    refine ⟨_, hd, ?_⟩
    rw [length_filterMap_parsedPair pkp ppk _ (fun p hp => (hv p hp).1)]
    rw [List.filter_eq_self.mpr (fun p hp => (hv p hp).2)]
    exact List.length_zip ss rs

/-- Witness for C9: three senders against two recipients — exactly two
pairs dispatched and the third sender is never consulted. -/
theorem c9_positional_zip_min_witness :
    dispatch pkpW ppkW ⟨["skey1", "skey2", "skey3"], ["rkey1", "rkey2"]⟩ =
      dispatch pkpW ppkW
        ⟨["skey1", "skey2", "skey3"].take 2, ["rkey1", "rkey2"].take 3⟩ ∧
    ∃ pairs,
      dispatch pkpW ppkW ⟨["skey1", "skey2", "skey3"], ["rkey1", "rkey2"]⟩ =
        some pairs ∧ pairs.length = min 3 2 :=
  ⟨(c9_positional_zip_min pkpW ppkW _ _).1,
   (c9_positional_zip_min pkpW ppkW _ _).2 (by decide)⟩

/-- C10: sender handling is asymmetric with recipient handling: the batch
aborts (via the `Keypair::from_base58_string` panic, before the pair's
task could be spawned) exactly when some zipped pair has a sender that
the base58 keypair parser rejects; a malformed sender is batch-fatal,
never skipped the way a malformed recipient is. -/
theorem c10_malformed_sender_batch_fatal (pkp : String → Option Keypair)
    (ppk : String → Option Pubkey) (cfg : Config)
    (envs : Nat → RpcEnv) (completes : Nat → Bool) :
    mainModel pkp ppk cfg envs completes =
        Except.error BatchError.panicBadSender ↔
      ∃ p ∈ cfg.sender_wallets.zip cfg.recipient_wallets, pkp p.1 = none := by
  rw [← dispatchPairs_eq_none_iff pkp ppk]
  unfold mainModel dispatch
  cases h : dispatchPairs pkp ppk (cfg.sender_wallets.zip cfg.recipient_wallets) with
  | none => simp
  | some pairs =>
    by_cases hall : (List.range pairs.length).all completes = true <;>
      simp [hall]

/-- Witness for C10: a single pair with a malformed sender aborts the
whole batch with the panic error. -/
theorem c10_malformed_sender_batch_fatal_witness :
    mainModel pkpW ppkW ⟨["oops"], ["rkey1"]⟩ envsW completesAll =
      Except.error BatchError.panicBadSender :=
  (c10_malformed_sender_batch_fatal pkpW ppkW _ envsW completesAll).mpr
    ⟨("oops", "rkey1"), by decide, by decide⟩

/-- C1: at batch completion (every sender well-formed, every task joined),
the result set has exactly one entry per input pair that passed recipient
validation and was dispatched; in particular, when every recipient is
valid, it has exactly as many entries as zipped input pairs. -/
theorem c1_resultset_size_eq_dispatched (pkp : String → Option Keypair)
    (ppk : String → Option Pubkey) (cfg : Config)
    (envs : Nat → RpcEnv) (completes : Nat → Bool)
    (hs : ∀ p ∈ cfg.sender_wallets.zip cfg.recipient_wallets,
      (pkp p.1).isSome = true)
    (hc : ∀ i, completes i = true) :
    ∃ rs, mainModel pkp ppk cfg envs completes = Except.ok rs ∧
      Multiset.card rs =
        ((cfg.sender_wallets.zip cfg.recipient_wallets).filter
          (fun p => (ppk p.2).isSome)).length ∧
      ((∀ p ∈ cfg.sender_wallets.zip cfg.recipient_wallets,
          (ppk p.2).isSome = true) →
        Multiset.card rs =
          (cfg.sender_wallets.zip cfg.recipient_wallets).length) := by
  have hd := dispatchPairs_eq_filterMap pkp ppk
    (cfg.sender_wallets.zip cfg.recipient_wallets) hs
  have hmain : mainModel pkp ppk cfg envs completes =
      Except.ok (↑(spawnedOutcomes envs
        ((cfg.sender_wallets.zip cfg.recipient_wallets).filterMap
          (parsedPair pkp ppk)))) := by
    unfold mainModel dispatch
    rw [hd]
    simp [List.all_eq_true.mpr (fun i _ => hc i)]
  refine ⟨_, hmain, ?_, ?_⟩
  · simp only [Multiset.coe_card, spawnedOutcomes, List.length_map,
      List.enum_length]
    exact length_filterMap_parsedPair pkp ppk _ hs
  · intro hr
    simp only [Multiset.coe_card, spawnedOutcomes, List.length_map,
      List.enum_length]
    rw [length_filterMap_parsedPair pkp ppk _ hs,
      List.filter_eq_self.mpr (fun p hp => hr p hp)]

/-- Witness for C1: two fully valid pairs, all tasks complete — the frozen
result set has exactly two entries. -/
theorem c1_resultset_size_eq_dispatched_witness :
    ∃ rs, mainModel pkpW ppkW ⟨["skey1", "skey2"], ["rkey1", "rkey2"]⟩
        envsW completesAll = Except.ok rs ∧ Multiset.card rs = 2 := by
  obtain ⟨rs, h1, h2, h3⟩ := c1_resultset_size_eq_dispatched pkpW ppkW
    ⟨["skey1", "skey2"], ["rkey1", "rkey2"]⟩ envsW completesAll
    (by decide) (fun _ => rfl)
  refine ⟨rs, h1, ?_⟩
  rw [h2]
  decide

/-- C3: the mutex serializes the appends, so no scheduler ordering loses
or corrupts an entry: any final content of the shared vector is a
permutation of the completed tasks' outcomes, hence its length is the
number of tasks that completed and each outcome occurs exactly as often
as the tasks produced it. -/
theorem c3_concurrent_appends_lossless (envs : Nat → RpcEnv)
    (completes : Nat → Bool) (pairs : List (Keypair × Pubkey))
    (rs : List TransactionResult)
    (h : concurrentPhase envs completes pairs rs) :
    rs.length = (pairs.enum.filter (fun ip => completes ip.1)).length ∧
    ∀ r, rs.count r = (completedOutcomes envs completes pairs).count r := by
  refine ⟨?_, fun r => h.count_eq r⟩
  have hlen := h.length_eq
  simpa [completedOutcomes] using hlen

/-- Witness for C3: two completing tasks appending in reverse spawn order
still yield a result set of size two with both outcomes present. -/
theorem c3_concurrent_appends_lossless_witness :
    concurrentPhase envsW completesAll [(⟨"A1"⟩, "B1"), (⟨"A2"⟩, "B2")]
      [⟨"A2", "B2", some "sig1", "Success", 5⟩,
       ⟨"A1", "B1", some "sig1", "Success", 5⟩] ∧
    ([⟨"A2", "B2", some "sig1", "Success", 5⟩,
      ⟨"A1", "B1", some "sig1", "Success", 5⟩] :
        List TransactionResult).length = 2 :=
  ⟨by unfold concurrentPhase; decide,
   ((c3_concurrent_appends_lossless envsW completesAll
      [(⟨"A1"⟩, "B1"), (⟨"A2"⟩, "B2")]
      [⟨"A2", "B2", some "sig1", "Success", 5⟩,
       ⟨"A1", "B1", some "sig1", "Success", 5⟩]
      (by unfold concurrentPhase; decide)).1).trans (by decide)⟩

/-- C8: a failed join of any spawned task aborts the whole batch: `main`
propagates the join error (the process exits with a non-zero indication)
and the report loop is never reached, regardless of how many other tasks
completed and appended their outcomes. -/
theorem c8_join_failure_aborts_batch (pkp : String → Option Keypair)
    (ppk : String → Option Pubkey) (cfg : Config)
    (envs : Nat → RpcEnv) (completes : Nat → Bool)
    (pairs : List (Keypair × Pubkey)) (i : Nat)
    (hd : dispatch pkp ppk cfg = some pairs)
    (hi : i < pairs.length) (hf : completes i = false) :
    mainModel pkp ppk cfg envs completes =
      Except.error BatchError.joinFailure := by
  unfold mainModel
  rw [hd]
  have hall : ¬ (List.range pairs.length).all completes = true := by
    intro hAll
    have hcontra := List.all_eq_true.mp hAll i (List.mem_range.mpr hi)
    rw [hf] at hcontra
    exact Bool.false_ne_true hcontra
  simp [hall]

/-- Witness for C8: one valid pair whose task faults — the batch ends in
the join error, producing no result set. -/
theorem c8_join_failure_aborts_batch_witness :
    mainModel pkpW ppkW ⟨["skey1"], ["rkey1"]⟩ envsW completesNone =
      Except.error BatchError.joinFailure :=
  c8_join_failure_aborts_batch pkpW ppkW ⟨["skey1"], ["rkey1"]⟩ envsW
    completesNone [(⟨"A1"⟩, "B1")] 0 (by decide) (by decide) rfl

end SolanaTestCli
